import Mathlib

/-!
Verification of the IOTWaterTankDevice firmware core: a shallow embedding of
the three-way Last-Write-Wins sync engine (`src/sync_merge.cpp`,
`src/handle_config_data.cpp`), the clock model
(`src/connection_sync_manager.cpp`), the webserver POST handlers
(`src/webserver.cpp`) and the pump relay policy (`src/relay_controller.cpp`),
together with proofs about the specified properties.

Modelling conventions:
* `uint64_t` timestamps are `Nat`; the merge logic only compares them, so no
  wrap-around modelling is needed there.  Where 64-bit wrap matters (the clock
  model) arithmetic is taken `% 2^64` explicitly.
* `float` values are modelled as exact rationals `ℚ`; the claims under proof
  only compare values for order / equality and never rely on rounding.
* `String` stays `String`, `bool` stays `Bool`.
* Side effects that do not touch the modelled state (debug prints, GPIO
  writes, NVS persistence, HTTP upload of accepted control data) are dropped;
  HTTP responses are modelled by small inductive response types.
-/

namespace IOTWaterTank

/-- `SyncMerge::findWinner` from `src/sync_merge.cpp` lines 8-63.
Timestamp `0` means "uninitialized / not synced" for ALL sources (the code's
own comment).  Returns `1` = API, `2` = LOCAL, `3` = SELF.
The C code's running `newest`/`winner` scan (initialised to `0`/`1`) is
transcribed as the `step1`/`step2`/`step3` accumulator pairs; the first scan
condition `api_is_set && api_ts > newest` with `newest = 0` is `0 < api_ts`. -/
def findWinner (api_ts local_ts self_ts : Nat) : Nat :=
  if 0 < api_ts ∧ ¬ 0 < local_ts ∧ ¬ 0 < self_ts then 1
  else if ¬ 0 < api_ts ∧ 0 < local_ts ∧ ¬ 0 < self_ts then 2
  else if ¬ 0 < api_ts ∧ ¬ 0 < local_ts ∧ 0 < self_ts then 3
  else if ¬ 0 < api_ts ∧ ¬ 0 < local_ts ∧ ¬ 0 < self_ts then 1
  else
    let step1 : Nat × Nat := if 0 < api_ts then (api_ts, 1) else (0, 1)
    let step2 : Nat × Nat :=
      if 0 < local_ts ∧ step1.1 < local_ts then (local_ts, 2) else step1
    let step3 : Nat × Nat :=
      if 0 < self_ts ∧ step2.1 < self_ts then (self_ts, 3) else step2
    step3.2

/-- Closed form of `findWinner`: SELF wins exactly when it is set and strictly
newest, otherwise LOCAL wins exactly when it is set and strictly newer than
API, otherwise API wins (covering the all-unset fallback). -/
theorem findWinner_char (a l t : Nat) :
    findWinner a l t =
      if 0 < t ∧ a < t ∧ l < t then 3
      else if 0 < l ∧ a < l then 2
      else 1 := by
  unfold findWinner
  dsimp only
  split_ifs <;> simp_all <;> omega

/-- The three-way sync slot from `include/sync_types.h` (`SyncBool`,
`SyncFloat`, `SyncString` are this structure at `Bool`, `ℚ`, `String`). -/
structure Sync3 (α : Type) where
  api_value : α
  api_lastModified : Nat
  local_value : α
  local_lastModified : Nat
  value : α
  lastModified : Nat
deriving DecidableEq

/-- Common body of `SyncMerge::mergeBool` / `mergeFloat` / `mergeString`
(`src/sync_merge.cpp` lines 65-163): the three C++ functions are verbatim
copies of each other except for the final "did the value change" comparison,
passed here as `changed`. -/
def mergeCore {α : Type} (changed : α → α → Bool) (sync : Sync3 α) :
    Sync3 α × Bool :=
  let winner :=
    findWinner sync.api_lastModified sync.local_lastModified sync.lastModified
  let oldValue := sync.value
  if winner = 1 then
    let s := { sync with value := sync.api_value,
                         lastModified := sync.api_lastModified }
    (s, changed s.value oldValue)
  else if winner = 2 then
    let s := { sync with value := sync.local_value,
                         lastModified := sync.local_lastModified }
    (s, changed s.value oldValue)
  else if winner = 3 then
    (sync, changed sync.value oldValue)
  else
    (sync, false)

/-- `SyncMerge::mergeBool` (`src/sync_merge.cpp` lines 65-97). -/
def mergeBool (sync : Sync3 Bool) : Sync3 Bool × Bool :=
  mergeCore (fun newValue oldValue => newValue != oldValue) sync

/-- `SyncMerge::mergeFloat` (`src/sync_merge.cpp` lines 99-130); the change
test is `abs(new - old) > 0.001f`. -/
def mergeFloat (sync : Sync3 ℚ) : Sync3 ℚ × Bool :=
  mergeCore (fun newValue oldValue => decide (|newValue - oldValue| > 1/1000))
    sync

/-- `SyncMerge::mergeString` (`src/sync_merge.cpp` lines 132-163). -/
def mergeString (sync : Sync3 String) : Sync3 String × Bool :=
  mergeCore (fun newValue oldValue => newValue != oldValue) sync

/-- C2: a source with timestamp 0 (never set) is never selected as the merge
winner while some other source has a nonzero timestamp, whatever the
magnitudes of the other timestamps. -/
theorem C2_unset_source_never_wins (a l t : Nat) :
    (a = 0 → 0 < l ∨ 0 < t → findWinner a l t ≠ 1) ∧
    (l = 0 → 0 < a ∨ 0 < t → findWinner a l t ≠ 2) ∧
    (t = 0 → 0 < a ∨ 0 < l → findWinner a l t ≠ 3) := by
  rw [findWinner_char]
  refine ⟨?_, ?_, ?_⟩ <;> intro h0 hset <;> split_ifs <;> omega

/-- Witness for C2 at concrete timestamps. -/
theorem C2_witness :
    findWinner 0 5 3 ≠ 1 ∧ findWinner 7 0 3 ≠ 2 ∧ findWinner 7 5 0 ≠ 3 :=
  ⟨(C2_unset_source_never_wins 0 5 3).1 rfl (Or.inl (by decide)),
   (C2_unset_source_never_wins 7 0 3).2.1 rfl (Or.inl (by decide)),
   (C2_unset_source_never_wins 7 5 0).2.2 rfl (Or.inl (by decide))⟩

/-- C3: with two or three sources set, the strictly greatest timestamp wins,
and equal maximal timestamps are resolved in the fixed order
API > LOCAL > SELF. -/
theorem C3_lww_with_tiebreak (a l t : Nat)
    (hset : (0 < a ∧ 0 < l) ∨ (0 < a ∧ 0 < t) ∨ (0 < l ∧ 0 < t)) :
    findWinner a l t =
      if a = max a (max l t) then 1
      else if l = max a (max l t) then 2
      else 3 := by
  rw [findWinner_char]
  rcases Nat.le_total a l with h1 | h1 <;>
    rcases Nat.le_total l t with h2 | h2 <;>
    rcases Nat.le_total a t with h3 | h3 <;>
    simp [Nat.max_def] <;> split_ifs <;> omega

/-- Witness for C3: API wins a tie against LOCAL, SELF wins when strictly
newest. -/
theorem C3_witness :
    findWinner 5 5 3 = if 5 = max 5 (max 5 3) then 1
      else if 5 = max 5 (max 5 3) then 2 else 3 :=
  C3_lww_with_tiebreak 5 5 3 (Or.inl ⟨by decide, by decide⟩)

/-- A concrete `SyncBool` in which the api source carries timestamp 0 while
local and self are set: api `(true, ts 0)`, local `(false, ts 5)`,
self `(false, ts 3)`. -/
def prioritySyncExample : Sync3 Bool :=
  { api_value := true, api_lastModified := 0,
    local_value := false, local_lastModified := 5,
    value := false, lastModified := 3 }

/-- C1 counterexample: with `api_timestamp = 0` and nonzero local/self
timestamps, the merged value is NOT `api_value` and the merged timestamp is
NOT the api timestamp — `findWinner` treats a zero api timestamp as
"uninitialized" and excludes it, so the claimed priority override does not
happen. -/
theorem C1_counterexample :
    ¬ ((mergeBool prioritySyncExample).1.value
          = prioritySyncExample.api_value ∧
       (mergeBool prioritySyncExample).1.lastModified
          = prioritySyncExample.api_lastModified) := by
  decide

/-- C1 (amended): if the api timestamp is 0 while the local and self
timestamps are nonzero, the api source is treated as never-set and loses:
the winner is never API, and the merged `(value, timestamp)` pair is the
newer of the local/self pairs (local winning the tie). -/
theorem C1_theorem (s : Sync3 Bool)
    (hapi : s.api_lastModified = 0)
    (hlocal : s.local_lastModified ≠ 0)
    (hself : s.lastModified ≠ 0) :
    findWinner s.api_lastModified s.local_lastModified s.lastModified ≠ 1 ∧
    ((mergeBool s).1.value, (mergeBool s).1.lastModified) =
      (if s.local_lastModified < s.lastModified
       then (s.value, s.lastModified)
       else (s.local_value, s.local_lastModified)) := by
  have hw := findWinner_char s.api_lastModified s.local_lastModified
    s.lastModified
  constructor
  · rw [hw]; split_ifs <;> omega
  · unfold mergeBool mergeCore
    dsimp only
    rw [hw]
    split_ifs <;> simp_all

/-- Witness for C1 (amended) at the concrete example value. -/
theorem C1_witness :
    findWinner prioritySyncExample.api_lastModified
      prioritySyncExample.local_lastModified
      prioritySyncExample.lastModified ≠ 1 ∧
    ((mergeBool prioritySyncExample).1.value,
     (mergeBool prioritySyncExample).1.lastModified) =
      (if prioritySyncExample.local_lastModified
            < prioritySyncExample.lastModified
       then (prioritySyncExample.value, prioritySyncExample.lastModified)
       else (prioritySyncExample.local_value,
             prioritySyncExample.local_lastModified)) :=
  C1_theorem prioritySyncExample rfl (by decide) (by decide)

/-- Frame/effect lemma for the shared merge body: the merged pair is the
winner's pair and the api/local slots are untouched. -/
theorem mergeCore_frame {α : Type} (changed : α → α → Bool) (s : Sync3 α) :
    ((mergeCore changed s).1.value, (mergeCore changed s).1.lastModified) =
      (if findWinner s.api_lastModified s.local_lastModified s.lastModified
            = 1
       then (s.api_value, s.api_lastModified)
       else if findWinner s.api_lastModified s.local_lastModified
            s.lastModified = 2
       then (s.local_value, s.local_lastModified)
       else (s.value, s.lastModified)) ∧
    (mergeCore changed s).1.api_value = s.api_value ∧
    (mergeCore changed s).1.api_lastModified = s.api_lastModified ∧
    (mergeCore changed s).1.local_value = s.local_value ∧
    (mergeCore changed s).1.local_lastModified = s.local_lastModified := by
  unfold mergeCore
  dsimp only
  split_ifs <;> simp_all

/-- C5: after a single-field merge (`mergeBool` and `mergeFloat`), the merged
`(value, timestamp)` pair equals the pair of the winning source selected by
`findWinner` (API, LOCAL, or the pre-merge SELF pair), and the
`api_value`/`api_lastModified`/`local_value`/`local_lastModified` slots are
unchanged. -/
theorem C5_merge_frame (sb : Sync3 Bool) (sf : Sync3 ℚ) :
    (((mergeBool sb).1.value, (mergeBool sb).1.lastModified) =
      (if findWinner sb.api_lastModified sb.local_lastModified sb.lastModified
            = 1
       then (sb.api_value, sb.api_lastModified)
       else if findWinner sb.api_lastModified sb.local_lastModified
            sb.lastModified = 2
       then (sb.local_value, sb.local_lastModified)
       else (sb.value, sb.lastModified)) ∧
     (mergeBool sb).1.api_value = sb.api_value ∧
     (mergeBool sb).1.api_lastModified = sb.api_lastModified ∧
     (mergeBool sb).1.local_value = sb.local_value ∧
     (mergeBool sb).1.local_lastModified = sb.local_lastModified) ∧
    (((mergeFloat sf).1.value, (mergeFloat sf).1.lastModified) =
      (if findWinner sf.api_lastModified sf.local_lastModified sf.lastModified
            = 1
       then (sf.api_value, sf.api_lastModified)
       else if findWinner sf.api_lastModified sf.local_lastModified
            sf.lastModified = 2
       then (sf.local_value, sf.local_lastModified)
       else (sf.value, sf.lastModified)) ∧
     (mergeFloat sf).1.api_value = sf.api_value ∧
     (mergeFloat sf).1.api_lastModified = sf.api_lastModified ∧
     (mergeFloat sf).1.local_value = sf.local_value ∧
     (mergeFloat sf).1.local_lastModified = sf.local_lastModified) :=
  ⟨mergeCore_frame _ sb, mergeCore_frame _ sf⟩

/-- If merging picked API, re-running `findWinner` with SELF's timestamp
replaced by the API timestamp still picks API. -/
theorem findWinner_stable_api (a l t : Nat) (h : findWinner a l t = 1) :
    findWinner a l a = 1 := by
  rw [findWinner_char] at h ⊢
  split_ifs at h ⊢ <;> omega

/-- If merging picked LOCAL, re-running `findWinner` with SELF's timestamp
replaced by the LOCAL timestamp still picks LOCAL. -/
theorem findWinner_stable_local (a l t : Nat) (h : findWinner a l t = 2) :
    findWinner a l l = 2 := by
  rw [findWinner_char] at h ⊢
  split_ifs at h ⊢ <;> omega

/-- A second run of the shared merge body on the output of a first run
leaves the sync slot unchanged and reports `false`, provided the
value-change test is irreflexive (which all three instances are). -/
theorem mergeCore_idem {α : Type} (changed : α → α → Bool)
    (hrefl : ∀ x : α, changed x x = false) (s : Sync3 α) :
    mergeCore changed (mergeCore changed s).1 = ((mergeCore changed s).1, false) := by
  by_cases h1 : findWinner s.api_lastModified s.local_lastModified
      s.lastModified = 1
  · have h2 := findWinner_stable_api s.api_lastModified s.local_lastModified
      s.lastModified h1
    unfold mergeCore
    dsimp only
    simp [h1, h2, hrefl]
  · by_cases h2 : findWinner s.api_lastModified s.local_lastModified
        s.lastModified = 2
    · have h3 := findWinner_stable_local s.api_lastModified
        s.local_lastModified s.lastModified h2
      unfold mergeCore
      dsimp only
      simp [h1, h2, h3, hrefl]
    · by_cases h3 : findWinner s.api_lastModified s.local_lastModified
          s.lastModified = 3
      · unfold mergeCore
        dsimp only
        simp [h1, h2, h3, hrefl]
      · unfold mergeCore
        dsimp only
        simp [h1, h2, h3, hrefl]

theorem mergeBool_idem (s : Sync3 Bool) :
    mergeBool (mergeBool s).1 = ((mergeBool s).1, false) :=
  mergeCore_idem _ (by intro x; simp) s

theorem mergeFloat_idem (s : Sync3 ℚ) :
    mergeFloat (mergeFloat s).1 = ((mergeFloat s).1, false) :=
  mergeCore_idem _ (by intro x; norm_num) s

theorem mergeString_idem (s : Sync3 String) :
    mergeString (mergeString s).1 = ((mergeString s).1, false) :=
  mergeCore_idem _ (by intro x; simp) s

/-- The config aggregate from `include/handle_config_data.h` /
`src/handle_config_data.cpp`: nine independent three-way sync slots. -/
structure ConfigDataHandler where
  upperThreshold : Sync3 ℚ
  lowerThreshold : Sync3 ℚ
  tankHeight : Sync3 ℚ
  tankWidth : Sync3 ℚ
  tankShape : Sync3 String
  usedTotal : Sync3 ℚ
  maxInflow : Sync3 ℚ
  forceUpdate : Sync3 Bool
  ipAddress : Sync3 String
deriving DecidableEq

/-- `ConfigDataHandler::merge` (`src/handle_config_data.cpp` lines 137-156):
merges every field and ORs the per-field change flags. -/
def ConfigDataHandler.merge (h : ConfigDataHandler) : ConfigDataHandler × Bool :=
  let r1 := mergeFloat h.upperThreshold
  let r2 := mergeFloat h.lowerThreshold
  let r3 := mergeFloat h.tankHeight
  let r4 := mergeFloat h.tankWidth
  let r5 := mergeString h.tankShape
  let r6 := mergeFloat h.usedTotal
  let r7 := mergeFloat h.maxInflow
  let r8 := mergeBool h.forceUpdate
  let r9 := mergeString h.ipAddress
  ({ upperThreshold := r1.1, lowerThreshold := r2.1, tankHeight := r3.1,
     tankWidth := r4.1, tankShape := r5.1, usedTotal := r6.1,
     maxInflow := r7.1, forceUpdate := r8.1, ipAddress := r9.1 },
   r1.2 || r2.2 || r3.2 || r4.2 || r5.2 || r6.2 || r7.2 || r8.2 || r9.2)

/-- `ConfigDataHandler::setAllPriority` (`src/handle_config_data.cpp` lines
158-171): forces the SELF timestamp of every field to 0. -/
def ConfigDataHandler.setAllPriority (h : ConfigDataHandler) : ConfigDataHandler :=
  { upperThreshold := { h.upperThreshold with lastModified := 0 },
    lowerThreshold := { h.lowerThreshold with lastModified := 0 },
    tankHeight := { h.tankHeight with lastModified := 0 },
    tankWidth := { h.tankWidth with lastModified := 0 },
    tankShape := { h.tankShape with lastModified := 0 },
    usedTotal := { h.usedTotal with lastModified := 0 },
    maxInflow := { h.maxInflow with lastModified := 0 },
    forceUpdate := { h.forceUpdate with lastModified := 0 },
    ipAddress := { h.ipAddress with lastModified := 0 } }

/-- `ConfigDataHandler::updateFromLocal` (`src/handle_config_data.cpp` lines
60-98): overwrites each field's local slot with the supplied value and
timestamp, touching nothing else. -/
def ConfigDataHandler.updateFromLocal (h : ConfigDataHandler)
    (uT : ℚ) (uT_ts : Nat) (lT : ℚ) (lT_ts : Nat)
    (tH : ℚ) (tH_ts : Nat) (tW : ℚ) (tW_ts : Nat)
    (tS : String) (tS_ts : Nat) (uTot : ℚ) (uTot_ts : Nat)
    (mI : ℚ) (mI_ts : Nat) (fU : Bool) (fU_ts : Nat)
    (ip : String) (ip_ts : Nat) : ConfigDataHandler :=
  { upperThreshold :=
      { h.upperThreshold with local_value := uT, local_lastModified := uT_ts },
    lowerThreshold :=
      { h.lowerThreshold with local_value := lT, local_lastModified := lT_ts },
    tankHeight :=
      { h.tankHeight with local_value := tH, local_lastModified := tH_ts },
    tankWidth :=
      { h.tankWidth with local_value := tW, local_lastModified := tW_ts },
    tankShape :=
      { h.tankShape with local_value := tS, local_lastModified := tS_ts },
    usedTotal :=
      { h.usedTotal with local_value := uTot, local_lastModified := uTot_ts },
    maxInflow :=
      { h.maxInflow with local_value := mI, local_lastModified := mI_ts },
    forceUpdate :=
      { h.forceUpdate with local_value := fU, local_lastModified := fU_ts },
    ipAddress :=
      { h.ipAddress with local_value := ip, local_lastModified := ip_ts } }

/-- C4: running `ConfigDataHandler::merge` a second time immediately after a
first merge, with no intervening updates, reports `changed = false` and
leaves every field of the aggregate (all values and all timestamps of all
three sources of all nine fields) exactly as the first merge left them. -/
theorem C4_merge_idempotent (h : ConfigDataHandler) :
    ConfigDataHandler.merge (h.merge).1 = ((h.merge).1, false) := by
  unfold ConfigDataHandler.merge
  dsimp only
  simp [mergeFloat_idem, mergeBool_idem, mergeString_idem]

/-- A sync slot whose SELF timestamp is 0 is treated as uninitialized: when
api or local is set, SELF never wins and the merged pair is the winning
api/local pair. -/
theorem mergeCore_self_priority {α : Type} (changed : α → α → Bool)
    (s : Sync3 α) (h0 : s.lastModified = 0)
    (hset : s.api_lastModified ≠ 0 ∨ s.local_lastModified ≠ 0) :
    findWinner s.api_lastModified s.local_lastModified s.lastModified ≠ 3 ∧
    ((mergeCore changed s).1.value, (mergeCore changed s).1.lastModified) =
      (if findWinner s.api_lastModified s.local_lastModified s.lastModified
            = 1
       then (s.api_value, s.api_lastModified)
       else (s.local_value, s.local_lastModified)) := by
  have hw := findWinner_char s.api_lastModified s.local_lastModified
    s.lastModified
  have hfr := (mergeCore_frame changed s).1
  have hne3 :
      findWinner s.api_lastModified s.local_lastModified s.lastModified
        ≠ 3 := by
    rw [hw]; split_ifs <;> omega
  have hor :
      findWinner s.api_lastModified s.local_lastModified s.lastModified = 1 ∨
      findWinner s.api_lastModified s.local_lastModified s.lastModified
        = 2 := by
    rw [hw]; split_ifs <;> omega
  refine ⟨hne3, ?_⟩
  rcases hor with h1 | h2
  · rw [hfr]; simp [h1]
  · rw [hfr]
    have : findWinner s.api_lastModified s.local_lastModified s.lastModified
        ≠ 1 := by omega
    simp [h2, this]

/-- C10: after `setAllPriority()` zeroes every field's SELF timestamp, a
subsequent `merge()` treats the SELF source of every field as uninitialized:
for any field whose api or local timestamp is nonzero, SELF never wins and
the device's own merged value/timestamp is replaced by the winning api/local
source's pair, regardless of how recently the device set it. -/
theorem C10_priority_then_merge (h : ConfigDataHandler) :
    ((h.upperThreshold.api_lastModified ≠ 0 ∨
        h.upperThreshold.local_lastModified ≠ 0) →
      findWinner h.upperThreshold.api_lastModified
          h.upperThreshold.local_lastModified 0 ≠ 3 ∧
      (((h.setAllPriority.merge).1.upperThreshold.value,
        (h.setAllPriority.merge).1.upperThreshold.lastModified) =
        (if findWinner h.upperThreshold.api_lastModified
              h.upperThreshold.local_lastModified 0 = 1
         then (h.upperThreshold.api_value, h.upperThreshold.api_lastModified)
         else (h.upperThreshold.local_value,
               h.upperThreshold.local_lastModified)))) ∧
    ((h.lowerThreshold.api_lastModified ≠ 0 ∨
        h.lowerThreshold.local_lastModified ≠ 0) →
      findWinner h.lowerThreshold.api_lastModified
          h.lowerThreshold.local_lastModified 0 ≠ 3 ∧
      (((h.setAllPriority.merge).1.lowerThreshold.value,
        (h.setAllPriority.merge).1.lowerThreshold.lastModified) =
        (if findWinner h.lowerThreshold.api_lastModified
              h.lowerThreshold.local_lastModified 0 = 1
         then (h.lowerThreshold.api_value, h.lowerThreshold.api_lastModified)
         else (h.lowerThreshold.local_value,
               h.lowerThreshold.local_lastModified)))) ∧
    ((h.tankHeight.api_lastModified ≠ 0 ∨
        h.tankHeight.local_lastModified ≠ 0) →
      findWinner h.tankHeight.api_lastModified
          h.tankHeight.local_lastModified 0 ≠ 3 ∧
      (((h.setAllPriority.merge).1.tankHeight.value,
        (h.setAllPriority.merge).1.tankHeight.lastModified) =
        (if findWinner h.tankHeight.api_lastModified
              h.tankHeight.local_lastModified 0 = 1
         then (h.tankHeight.api_value, h.tankHeight.api_lastModified)
         else (h.tankHeight.local_value,
               h.tankHeight.local_lastModified)))) ∧
    ((h.tankWidth.api_lastModified ≠ 0 ∨
        h.tankWidth.local_lastModified ≠ 0) →
      findWinner h.tankWidth.api_lastModified
          h.tankWidth.local_lastModified 0 ≠ 3 ∧
      (((h.setAllPriority.merge).1.tankWidth.value,
        (h.setAllPriority.merge).1.tankWidth.lastModified) =
        (if findWinner h.tankWidth.api_lastModified
              h.tankWidth.local_lastModified 0 = 1
         then (h.tankWidth.api_value, h.tankWidth.api_lastModified)
         else (h.tankWidth.local_value, h.tankWidth.local_lastModified)))) ∧
    ((h.tankShape.api_lastModified ≠ 0 ∨
        h.tankShape.local_lastModified ≠ 0) →
      findWinner h.tankShape.api_lastModified
          h.tankShape.local_lastModified 0 ≠ 3 ∧
      (((h.setAllPriority.merge).1.tankShape.value,
        (h.setAllPriority.merge).1.tankShape.lastModified) =
        (if findWinner h.tankShape.api_lastModified
              h.tankShape.local_lastModified 0 = 1
         then (h.tankShape.api_value, h.tankShape.api_lastModified)
         else (h.tankShape.local_value, h.tankShape.local_lastModified)))) ∧
    ((h.usedTotal.api_lastModified ≠ 0 ∨
        h.usedTotal.local_lastModified ≠ 0) →
      findWinner h.usedTotal.api_lastModified
          h.usedTotal.local_lastModified 0 ≠ 3 ∧
      (((h.setAllPriority.merge).1.usedTotal.value,
        (h.setAllPriority.merge).1.usedTotal.lastModified) =
        (if findWinner h.usedTotal.api_lastModified
              h.usedTotal.local_lastModified 0 = 1
         then (h.usedTotal.api_value, h.usedTotal.api_lastModified)
         else (h.usedTotal.local_value, h.usedTotal.local_lastModified)))) ∧
    ((h.maxInflow.api_lastModified ≠ 0 ∨
        h.maxInflow.local_lastModified ≠ 0) →
      findWinner h.maxInflow.api_lastModified
          h.maxInflow.local_lastModified 0 ≠ 3 ∧
      (((h.setAllPriority.merge).1.maxInflow.value,
        (h.setAllPriority.merge).1.maxInflow.lastModified) =
        (if findWinner h.maxInflow.api_lastModified
              h.maxInflow.local_lastModified 0 = 1
         then (h.maxInflow.api_value, h.maxInflow.api_lastModified)
         else (h.maxInflow.local_value, h.maxInflow.local_lastModified)))) ∧
    ((h.forceUpdate.api_lastModified ≠ 0 ∨
        h.forceUpdate.local_lastModified ≠ 0) →
      findWinner h.forceUpdate.api_lastModified
          h.forceUpdate.local_lastModified 0 ≠ 3 ∧
      (((h.setAllPriority.merge).1.forceUpdate.value,
        (h.setAllPriority.merge).1.forceUpdate.lastModified) =
        (if findWinner h.forceUpdate.api_lastModified
              h.forceUpdate.local_lastModified 0 = 1
         then (h.forceUpdate.api_value, h.forceUpdate.api_lastModified)
         else (h.forceUpdate.local_value,
               h.forceUpdate.local_lastModified)))) ∧
    ((h.ipAddress.api_lastModified ≠ 0 ∨
        h.ipAddress.local_lastModified ≠ 0) →
      findWinner h.ipAddress.api_lastModified
          h.ipAddress.local_lastModified 0 ≠ 3 ∧
      (((h.setAllPriority.merge).1.ipAddress.value,
        (h.setAllPriority.merge).1.ipAddress.lastModified) =
        (if findWinner h.ipAddress.api_lastModified
              h.ipAddress.local_lastModified 0 = 1
         then (h.ipAddress.api_value, h.ipAddress.api_lastModified)
         else (h.ipAddress.local_value, h.ipAddress.local_lastModified)))) :=
  ⟨fun hg => mergeCore_self_priority _
      { h.upperThreshold with lastModified := 0 } rfl hg,
   fun hg => mergeCore_self_priority _
      { h.lowerThreshold with lastModified := 0 } rfl hg,
   fun hg => mergeCore_self_priority _
      { h.tankHeight with lastModified := 0 } rfl hg,
   fun hg => mergeCore_self_priority _
      { h.tankWidth with lastModified := 0 } rfl hg,
   fun hg => mergeCore_self_priority _
      { h.tankShape with lastModified := 0 } rfl hg,
   fun hg => mergeCore_self_priority _
      { h.usedTotal with lastModified := 0 } rfl hg,
   fun hg => mergeCore_self_priority _
      { h.maxInflow with lastModified := 0 } rfl hg,
   fun hg => mergeCore_self_priority _
      { h.forceUpdate with lastModified := 0 } rfl hg,
   fun hg => mergeCore_self_priority _
      { h.ipAddress with lastModified := 0 } rfl hg⟩

/-- A concrete config aggregate for witnesses: every field has an unset api
slot, a local slot written at timestamp 1, and a self slot written at
timestamp 9 (so without `setAllPriority` the self source would win). -/
def configExample : ConfigDataHandler :=
  { upperThreshold := ⟨0, 0, 42, 1, 7, 9⟩,
    lowerThreshold := ⟨0, 0, 41, 1, 6, 9⟩,
    tankHeight := ⟨0, 0, 40, 1, 5, 9⟩,
    tankWidth := ⟨0, 0, 39, 1, 4, 9⟩,
    tankShape := ⟨"", 0, "Rectangular", 1, "Cylindrical", 9⟩,
    usedTotal := ⟨0, 0, 38, 1, 3, 9⟩,
    maxInflow := ⟨0, 0, 37, 1, 2, 9⟩,
    forceUpdate := ⟨false, 0, true, 1, false, 9⟩,
    ipAddress := ⟨"", 0, "10.0.0.2", 1, "10.0.0.9", 9⟩ }

/-- Witness for C10 at `configExample` (all nine guards discharged). -/
theorem C10_witness :
    (findWinner configExample.upperThreshold.api_lastModified
        configExample.upperThreshold.local_lastModified 0 ≠ 3 ∧
      ((configExample.setAllPriority.merge).1.upperThreshold.value,
       (configExample.setAllPriority.merge).1.upperThreshold.lastModified) =
        (if findWinner configExample.upperThreshold.api_lastModified
              configExample.upperThreshold.local_lastModified 0 = 1
         then (configExample.upperThreshold.api_value,
               configExample.upperThreshold.api_lastModified)
         else (configExample.upperThreshold.local_value,
               configExample.upperThreshold.local_lastModified))) ∧
    (findWinner configExample.ipAddress.api_lastModified
        configExample.ipAddress.local_lastModified 0 ≠ 3 ∧
      ((configExample.setAllPriority.merge).1.ipAddress.value,
       (configExample.setAllPriority.merge).1.ipAddress.lastModified) =
        (if findWinner configExample.ipAddress.api_lastModified
              configExample.ipAddress.local_lastModified 0 = 1
         then (configExample.ipAddress.api_value,
               configExample.ipAddress.api_lastModified)
         else (configExample.ipAddress.local_value,
               configExample.ipAddress.local_lastModified))) := by
  have H := C10_priority_then_merge configExample
  exact ⟨H.1 (Or.inr (by decide)),
         H.2.2.2.2.2.2.2.2 (Or.inr (by decide))⟩

/-- Pump modes from `include/relay_controller.h`
(`MODE_AUTO` / `MODE_MANUAL` / `MODE_OVERRIDE`). -/
inductive PumpMode
  | modeAuto
  | modeManual
  | modeOverride
deriving DecidableEq

/-- The relay controller state relevant to the pump policy
(`src/relay_controller.cpp`). -/
structure RelayController where
  pumpState : Bool
  currentMode : PumpMode
  hardwareOverride : Bool
deriving DecidableEq

/-- The command issued by the hysteresis branch of
`RelayController::handleAutoMode` (`src/relay_controller.cpp` lines 64-75):
`some true` when `applyPumpState(true)` is called (level below the lower
threshold), `some false` when `applyPumpState(false)` is called (otherwise,
level above the upper threshold), `none` when neither branch fires. -/
def autoCommand (waterLevel upperThreshold lowerThreshold : ℚ) : Option Bool :=
  if waterLevel < lowerThreshold then some true
  else if waterLevel > upperThreshold then some false
  else none

/-- `RelayController::applyPumpState` restricted to the modelled state (the
GPIO write is outside the model). -/
def applyPumpState (r : RelayController) (state : Bool) : RelayController :=
  { r with pumpState := state }

/-- `RelayController::handleAutoMode` (`src/relay_controller.cpp`
lines 64-75). -/
def handleAutoMode (r : RelayController)
    (waterLevel upperThreshold lowerThreshold : ℚ) : RelayController :=
  match autoCommand waterLevel upperThreshold lowerThreshold with
  | some st => applyPumpState r st
  | none => r

/-- `RelayController::update` (`src/relay_controller.cpp` lines 77-105). -/
def RelayController.update (r : RelayController)
    (waterLevel upperThreshold lowerThreshold : ℚ) : RelayController :=
  if r.hardwareOverride then r
  else
    match r.currentMode with
    | PumpMode.modeAuto =>
        handleAutoMode r waterLevel upperThreshold lowerThreshold
    | PumpMode.modeManual => r
    | PumpMode.modeOverride => r

/-- C9 counterexample: with crossed thresholds (`lower = 3 > upper = 1`) and
level `2`, the level is above the upper threshold, yet the pump is commanded
ON (the `level < lower` branch fires first), so "OFF exactly when
`level > upper`" fails as a biconditional. -/
theorem C9_counterexample :
    ¬ (autoCommand 2 1 3 = some false ↔ (2 : ℚ) > 1) ∧
    (RelayController.update
        ⟨false, PumpMode.modeAuto, false⟩ 2 1 3).pumpState = true ∧
    (2 : ℚ) > 1 := by
  refine ⟨?_, by decide, by norm_num⟩
  intro hiff
  have h := hiff.2 (by norm_num)
  have : autoCommand 2 1 3 = some true := by
    unfold autoCommand
    norm_num
  rw [this] at h
  exact Option.noConfusion h fun hb => Bool.noConfusion hb

/-- C9 (amended): in Auto mode with hardware override inactive, the pump is
commanded ON exactly when `level < lower`, commanded OFF exactly when
`level > upper` AND the ON branch did not fire (the two coincide whenever
`lower ≤ upper`), and for every level between the thresholds (inclusive) the
pump retains its prior state. -/
theorem C9_theorem (r : RelayController) (level upper lower : ℚ)
    (hmode : r.currentMode = PumpMode.modeAuto)
    (hov : r.hardwareOverride = false) :
    (autoCommand level upper lower = some true ↔ level < lower) ∧
    (autoCommand level upper lower = some false ↔
      (upper < level ∧ ¬ level < lower)) ∧
    (lower ≤ level → level ≤ upper →
      (r.update level upper lower).pumpState = r.pumpState) ∧
    (r.update level upper lower).pumpState =
      (autoCommand level upper lower).getD r.pumpState := by
  refine ⟨?_, ?_, ?_, ?_⟩
  · unfold autoCommand
    by_cases h1 : level < lower
    · simp [h1]
    · by_cases h2 : level > upper <;> simp [h1, h2]
  · unfold autoCommand
    by_cases h1 : level < lower
    · simp [h1]
    · by_cases h2 : level > upper <;> simp [h1, h2]
  · intro hlo hup
    have h1 : ¬ level < lower := not_lt.2 hlo
    have h2 : ¬ upper < level := not_lt.2 hup
    simp [RelayController.update, handleAutoMode, autoCommand, hov, hmode,
      h1, h2]
  · cases hc : autoCommand level upper lower with
    | none =>
        simp [RelayController.update, handleAutoMode, hov, hmode, hc]
    | some b =>
        simp [RelayController.update, handleAutoMode, applyPumpState, hov,
          hmode, hc]

/-- Witness for C9 (amended) at a concrete state and sane thresholds. -/
theorem C9_witness :
    (autoCommand 5 8 2 = some true ↔ (5 : ℚ) < 2) ∧
    (autoCommand 5 8 2 = some false ↔ ((8 : ℚ) < 5 ∧ ¬ (5 : ℚ) < 2)) ∧
    ((2 : ℚ) ≤ 5 → (5 : ℚ) ≤ 8 →
      (RelayController.update
          ⟨true, PumpMode.modeAuto, false⟩ 5 8 2).pumpState =
        (⟨true, PumpMode.modeAuto, false⟩ : RelayController).pumpState) ∧
    (RelayController.update
        ⟨true, PumpMode.modeAuto, false⟩ 5 8 2).pumpState =
      (autoCommand 5 8 2).getD
        (⟨true, PumpMode.modeAuto, false⟩ : RelayController).pumpState :=
  C9_theorem ⟨true, PumpMode.modeAuto, false⟩ 5 8 2 rfl rfl

/-- Clock state of `ConnectionSyncManager`
(`src/connection_sync_manager.cpp`): the persisted sync status fields
`lastServerTimestamp`/`millisAtSync` (`uint64_t`) and `overflowCount`
(`uint32_t`), plus the `static unsigned long lastMillis` local of
`checkMillisOverflow` (a 32-bit `millis()` sample on this target). -/
structure ClockState where
  lastServerTimestamp : Nat
  millisAtSync : Nat
  overflowCount : Nat
  lastMillis : Nat
deriving DecidableEq

/-- `ConnectionSyncManager::checkMillisOverflow`
(`src/connection_sync_manager.cpp` lines 237-249): `currentMillis` is the
value of the 32-bit `millis()` counter at the call; the overflow counter is
bumped (as a `uint32_t`) exactly when the observed counter is below the
previous sample. -/
def checkMillisOverflow (s : ClockState) (currentMillis : Nat) : ClockState :=
  let s1 :=
    if currentMillis < s.lastMillis
    then { s with overflowCount := (s.overflowCount + 1) % 2 ^ 32 }
    else s
  { s1 with lastMillis := currentMillis }

/-- `ConnectionSyncManager::getCurrentTimestamp`
(`src/connection_sync_manager.cpp` lines 172-182).  `currentMillis` stands
for the `millis()` reading during the call (the code samples it twice within
microseconds; the model uses one value).  All `uint64_t` arithmetic is taken
`% 2^64`; the subtraction `currentMillis - millisAtSync` is the wrapping
unsigned subtraction. -/
def getCurrentTimestamp (s : ClockState) (currentMillis : Nat) :
    ClockState × Nat :=
  let s1 := checkMillisOverflow s currentMillis
  let elapsedMillis := (currentMillis + 2 ^ 64 - s1.millisAtSync) % 2 ^ 64
  let overflowCompensation := s1.overflowCount * 4294967296 % 2 ^ 64
  (s1, (s1.lastServerTimestamp + elapsedMillis + overflowCompensation)
        % 2 ^ 64)

/-- C8: `getCurrentTimestamp` returns
`lastServerTimestamp + (currentMillis - millisAtSync) + overflowCount * 2^32`
(the subtraction read over ℤ, i.e. the true elapsed milliseconds once
`overflowCount` counts the 32-bit counter wraps since the sync sample), and
`overflowCount` is incremented exactly when the observed counter value is
below the previously sampled one — so the wall-clock estimate is correct
across counter wraparound. -/
theorem C8_clock_timestamp (s : ClockState) (m : Nat)
    (hm : m < 2 ^ 32) (hsync : s.millisAtSync < 2 ^ 32)
    (hof : s.overflowCount < 2 ^ 32)
    (helapsed :
      s.millisAtSync ≤ m + (checkMillisOverflow s m).overflowCount * 2 ^ 32)
    (hbound :
      s.lastServerTimestamp + m
          + (checkMillisOverflow s m).overflowCount * 2 ^ 32 < 2 ^ 64) :
    (getCurrentTimestamp s m).2 =
      s.lastServerTimestamp
        + (m + (checkMillisOverflow s m).overflowCount * 2 ^ 32
            - s.millisAtSync) ∧
    (getCurrentTimestamp s m).1.overflowCount =
      (if m < s.lastMillis then (s.overflowCount + 1) % 2 ^ 32
       else s.overflowCount) := by
  unfold getCurrentTimestamp checkMillisOverflow at *
  split_ifs at * <;> dsimp only at * <;> constructor <;> omega

/-- Witness for C8: one wrap recorded since sync (`m < lastMillis` bumps the
counter from 0 to 1), sync captured at counter value `2^32 - 100`, current
counter `50`, so the true elapsed time is `150` ms. -/
theorem C8_witness :
    (getCurrentTimestamp ⟨1000000, 2 ^ 32 - 100, 0, 2 ^ 32 - 100⟩ 50).2 =
      1000000 + (50 + (checkMillisOverflow
          ⟨1000000, 2 ^ 32 - 100, 0, 2 ^ 32 - 100⟩ 50).overflowCount * 2 ^ 32
        - (2 ^ 32 - 100)) ∧
    (getCurrentTimestamp
        ⟨1000000, 2 ^ 32 - 100, 0, 2 ^ 32 - 100⟩ 50).1.overflowCount =
      (if 50 < 2 ^ 32 - 100 then (0 + 1) % 2 ^ 32 else 0) :=
  C8_clock_timestamp ⟨1000000, 2 ^ 32 - 100, 0, 2 ^ 32 - 100⟩ 50
    (by norm_num) (by norm_num) (by norm_num)
    (by unfold checkMillisOverflow; norm_num)
    (by unfold checkMillisOverflow; norm_num)

/-- `ControlData` from `include/control_data.h`: two boolean control fields,
each with its own timestamp. -/
structure ControlData where
  pumpSwitch : Bool
  config_update : Bool
  pumpSwitchLastModified : Nat
  configUpdateLastModified : Nat
deriving DecidableEq

/-- One parsed field object `{value, lastModified}` of a control/config POST
body. -/
structure PostedField (α : Type) where
  value : α
  lastModified : Nat
deriving DecidableEq

/-- The parsed body of `POST /{device_id}/control`: each key may be absent
(mirrors `doc.containsKey(...)` in `WebServer::handlePostControl`). -/
structure ControlRequest where
  pumpSwitch : Option (PostedField Bool)
  config_update : Option (PostedField Bool)
deriving DecidableEq

/-- Responses of `WebServer::handlePostControl` after a successful JSON
parse: `okIdentical`, `okPriority` and `okLww` are HTTP 200 success
responses; `conflictStale` is the HTTP 409 `STALE_TIMESTAMP` conflict
response. -/
inductive ControlResponse
  | okIdentical
  | okPriority
  | okLww
  | conflictStale
deriving DecidableEq

/-- `WebServer::handlePostControl` (`src/webserver.cpp` lines 317-551) after
JSON parsing: `controlData` is the stored control state, `req` the parsed
body, `now` the fresh timestamp source (`apiClient->getCurrentTimestamp()`
or the `millis()` fallback) used by the priority branch.
Rule 2 (values identical) is checked first, then Rule 1 (a priority flag,
some submitted `lastModified == 0`), then Rule 3 (per-field LWW); if no
field is accepted the state is unchanged and 409 is returned. -/
def handlePostControl (controlData : ControlData) (req : ControlRequest)
    (now : Nat) : ControlData × ControlResponse :=
  let hasPumpSwitchInRequest := req.pumpSwitch.isSome
  let hasConfigUpdateInRequest := req.config_update.isSome
  let incomingControl : ControlData :=
    { pumpSwitch :=
        (req.pumpSwitch.map PostedField.value).getD controlData.pumpSwitch,
      pumpSwitchLastModified :=
        (req.pumpSwitch.map PostedField.lastModified).getD
          controlData.pumpSwitchLastModified,
      config_update :=
        (req.config_update.map PostedField.value).getD
          controlData.config_update,
      configUpdateLastModified :=
        (req.config_update.map PostedField.lastModified).getD
          controlData.configUpdateLastModified }
  let hasPriorityFlag :=
    (hasPumpSwitchInRequest
        && (incomingControl.pumpSwitchLastModified == 0))
      || (hasConfigUpdateInRequest
        && (incomingControl.configUpdateLastModified == 0))
  let pumpValueChanged :=
    hasPumpSwitchInRequest
      && (incomingControl.pumpSwitch != controlData.pumpSwitch)
  let configValueChanged :=
    hasConfigUpdateInRequest
      && (incomingControl.config_update != controlData.config_update)
  if !pumpValueChanged && !configValueChanged then
    (controlData, ControlResponse.okIdentical)
  else if hasPriorityFlag then
    let updated :=
      { incomingControl with
        pumpSwitchLastModified :=
          if hasPumpSwitchInRequest then now
          else incomingControl.pumpSwitchLastModified,
        configUpdateLastModified :=
          if hasConfigUpdateInRequest then now
          else incomingControl.configUpdateLastModified }
    (updated, ControlResponse.okPriority)
  else
    let afterPump :=
      if hasPumpSwitchInRequest
          && decide (controlData.pumpSwitchLastModified
            < incomingControl.pumpSwitchLastModified) then
        ({ controlData with
            pumpSwitch := incomingControl.pumpSwitch,
            pumpSwitchLastModified :=
              incomingControl.pumpSwitchLastModified }, true)
      else (controlData, false)
    let afterConfig :=
      if hasConfigUpdateInRequest
          && decide (controlData.configUpdateLastModified
            < incomingControl.configUpdateLastModified) then
        ({ afterPump.1 with
            config_update := incomingControl.config_update,
            configUpdateLastModified :=
              incomingControl.configUpdateLastModified }, true)
      else (afterPump.1, false)
    if afterPump.2 || afterConfig.2 then
      (afterConfig.1, ControlResponse.okLww)
    else
      (controlData, ControlResponse.conflictStale)

/-- C7: a control POST whose every submitted field carries a changed value,
a nonzero timestamp, and a timestamp not greater than the stored one (a
stale write with no priority override) is answered with the 409 conflict
response and leaves the stored control data — values and timestamps — fully
unchanged. -/
theorem C7_stale_write_rejected (cd : ControlData) (req : ControlRequest)
    (now : Nat)
    (hsome : req.pumpSwitch.isSome ∨ req.config_update.isSome)
    (hpump : ∀ f, req.pumpSwitch = some f →
      f.value ≠ cd.pumpSwitch ∧ f.lastModified ≠ 0 ∧
      f.lastModified ≤ cd.pumpSwitchLastModified)
    (hconf : ∀ f, req.config_update = some f →
      f.value ≠ cd.config_update ∧ f.lastModified ≠ 0 ∧
      f.lastModified ≤ cd.configUpdateLastModified) :
    handlePostControl cd req now = (cd, ControlResponse.conflictStale) := by
  unfold handlePostControl
  cases hp : req.pumpSwitch with
  | none =>
      cases hc : req.config_update with
      | none => simp [hp, hc] at hsome
      | some fc =>
          obtain ⟨hv, ht0, htle⟩ := hconf fc hc
          simp [hp, hc, hv, ht0, Nat.not_lt.2 htle, Ne.symm hv]
  | some fp =>
      obtain ⟨hv, ht0, htle⟩ := hpump fp hp
      cases hc : req.config_update with
      | none =>
          simp [hp, hc, hv, ht0, Nat.not_lt.2 htle, Ne.symm hv]
      | some fc =>
          obtain ⟨hv2, ht02, htle2⟩ := hconf fc hc
          simp [hp, hc, hv, ht0, Nat.not_lt.2 htle, Ne.symm hv,
            hv2, ht02, Nat.not_lt.2 htle2, Ne.symm hv2]

/-- A concrete stored control state for the C7 witness. -/
def controlExample : ControlData :=
  { pumpSwitch := false, config_update := false,
    pumpSwitchLastModified := 10, configUpdateLastModified := 20 }

/-- Witness for C7: submitting `pumpSwitch = true` with the older nonzero
timestamp 5 against stored timestamp 10 yields the 409 conflict and an
unchanged store. -/
theorem C7_witness :
    handlePostControl controlExample ⟨some ⟨true, 5⟩, none⟩ 999 =
      (controlExample, ControlResponse.conflictStale) :=
  C7_stale_write_rejected controlExample ⟨some ⟨true, 5⟩, none⟩ 999
    (Or.inl (by decide))
    (fun f hf => by cases hf; exact ⟨by decide, by decide, by decide⟩)
    (fun f hf => by cases hf)

/-- `DeviceConfig` from `include/device_config.h`: the webserver-side config
snapshot with per-field timestamps (floats as exact rationals). -/
structure DeviceConfig where
  upperThreshold : ℚ
  upperThresholdLastModified : Nat
  lowerThreshold : ℚ
  lowerThresholdLastModified : Nat
  tankHeight : ℚ
  tankHeightLastModified : Nat
  tankWidth : ℚ
  tankWidthLastModified : Nat
  tankShape : String
  tankShapeLastModified : Nat
  usedTotal : ℚ
  usedTotalLastModified : Nat
  maxInflow : ℚ
  maxInflowLastModified : Nat
  force_update : Bool
  forceUpdateLastModified : Nat
  sensorFilter : Bool
  sensorFilterLastModified : Nat
  ipAddress : String
  ipAddressLastModified : Nat
  auto_update : Bool
  autoUpdateLastModified : Nat
deriving DecidableEq

/-- The parsed body of `POST /{device_id}/config`: the ten keys probed by
`WebServer::handlePostDeviceConfig` (`auto_update` is not parsed by the
handler), each possibly absent. -/
structure ConfigRequest where
  upperThreshold : Option (PostedField ℚ)
  lowerThreshold : Option (PostedField ℚ)
  tankHeight : Option (PostedField ℚ)
  tankWidth : Option (PostedField ℚ)
  tankShape : Option (PostedField String)
  usedTotal : Option (PostedField ℚ)
  maxInflow : Option (PostedField ℚ)
  force_update : Option (PostedField Bool)
  sensorFilter : Option (PostedField Bool)
  ip_address : Option (PostedField String)
deriving DecidableEq

/-- The `incomingConfig` assembled by `handlePostDeviceConfig`
(`src/webserver.cpp` lines 695-749): start from the current config and
overwrite each submitted field's value and timestamp. -/
def configIncoming (dc : DeviceConfig) (req : ConfigRequest) : DeviceConfig :=
  { dc with
    upperThreshold :=
      (req.upperThreshold.map PostedField.value).getD dc.upperThreshold,
    upperThresholdLastModified :=
      (req.upperThreshold.map PostedField.lastModified).getD
        dc.upperThresholdLastModified,
    lowerThreshold :=
      (req.lowerThreshold.map PostedField.value).getD dc.lowerThreshold,
    lowerThresholdLastModified :=
      (req.lowerThreshold.map PostedField.lastModified).getD
        dc.lowerThresholdLastModified,
    tankHeight := (req.tankHeight.map PostedField.value).getD dc.tankHeight,
    tankHeightLastModified :=
      (req.tankHeight.map PostedField.lastModified).getD
        dc.tankHeightLastModified,
    tankWidth := (req.tankWidth.map PostedField.value).getD dc.tankWidth,
    tankWidthLastModified :=
      (req.tankWidth.map PostedField.lastModified).getD
        dc.tankWidthLastModified,
    tankShape := (req.tankShape.map PostedField.value).getD dc.tankShape,
    tankShapeLastModified :=
      (req.tankShape.map PostedField.lastModified).getD
        dc.tankShapeLastModified,
    usedTotal := (req.usedTotal.map PostedField.value).getD dc.usedTotal,
    usedTotalLastModified :=
      (req.usedTotal.map PostedField.lastModified).getD
        dc.usedTotalLastModified,
    maxInflow := (req.maxInflow.map PostedField.value).getD dc.maxInflow,
    maxInflowLastModified :=
      (req.maxInflow.map PostedField.lastModified).getD
        dc.maxInflowLastModified,
    force_update :=
      (req.force_update.map PostedField.value).getD dc.force_update,
    forceUpdateLastModified :=
      (req.force_update.map PostedField.lastModified).getD
        dc.forceUpdateLastModified,
    sensorFilter :=
      (req.sensorFilter.map PostedField.value).getD dc.sensorFilter,
    sensorFilterLastModified :=
      (req.sensorFilter.map PostedField.lastModified).getD
        dc.sensorFilterLastModified,
    ipAddress := (req.ip_address.map PostedField.value).getD dc.ipAddress,
    ipAddressLastModified :=
      (req.ip_address.map PostedField.lastModified).getD
        dc.ipAddressLastModified }

/-- `hasPriorityFlag` of `handlePostDeviceConfig`: some submitted field
carries `lastModified == 0`. -/
def configHasPriority (req : ConfigRequest) : Bool :=
  ((req.upperThreshold.map PostedField.lastModified).getD 1 == 0)
    || ((req.lowerThreshold.map PostedField.lastModified).getD 1 == 0)
    || ((req.tankHeight.map PostedField.lastModified).getD 1 == 0)
    || ((req.tankWidth.map PostedField.lastModified).getD 1 == 0)
    || ((req.tankShape.map PostedField.lastModified).getD 1 == 0)
    || ((req.usedTotal.map PostedField.lastModified).getD 1 == 0)
    || ((req.maxInflow.map PostedField.lastModified).getD 1 == 0)
    || ((req.force_update.map PostedField.lastModified).getD 1 == 0)
    || ((req.sensorFilter.map PostedField.lastModified).getD 1 == 0)
    || ((req.ip_address.map PostedField.lastModified).getD 1 == 0)

/-- The `valuesChanged` scan of `handlePostDeviceConfig`
(`src/webserver.cpp` lines 751-762): compares the ten parsed fields of the
incoming config against the stored one (timestamps and `auto_update`
excluded). -/
def configValuesChanged (dc incoming : DeviceConfig) : Bool :=
  (incoming.upperThreshold != dc.upperThreshold)
    || (incoming.lowerThreshold != dc.lowerThreshold)
    || (incoming.tankHeight != dc.tankHeight)
    || (incoming.tankWidth != dc.tankWidth)
    || (incoming.tankShape != dc.tankShape)
    || (incoming.usedTotal != dc.usedTotal)
    || (incoming.maxInflow != dc.maxInflow)
    || (incoming.force_update != dc.force_update)
    || (incoming.sensorFilter != dc.sensorFilter)
    || (incoming.ipAddress != dc.ipAddress)

/-- The priority branch of `handlePostDeviceConfig` (`src/webserver.cpp`
lines 784-802): all ten parsed fields are restamped with the single current
timestamp (`auto_update`'s timestamp is untouched). -/
def stampConfigTimestamps (dc : DeviceConfig) (now : Nat) : DeviceConfig :=
  { dc with
    upperThresholdLastModified := now,
    lowerThresholdLastModified := now,
    tankHeightLastModified := now,
    tankWidthLastModified := now,
    tankShapeLastModified := now,
    usedTotalLastModified := now,
    maxInflowLastModified := now,
    forceUpdateLastModified := now,
    sensorFilterLastModified := now,
    ipAddressLastModified := now }

/-- Responses of `WebServer::handlePostDeviceConfig` after a successful JSON
parse: `okIdentical` and `okPriority` are HTTP 200 success messages;
`priorityRequired` is the HTTP 400 `PRIORITY_REQUIRED` rejection.  None of
them carries field values. -/
inductive ConfigPostResponse
  | okIdentical
  | okPriority
  | priorityRequired
deriving DecidableEq

/-- `WebServer::handlePostDeviceConfig` (`src/webserver.cpp` lines 657-846)
after JSON parsing: Rule 2 (values identical → skip) first, then Rule 1
(priority flag → overwrite everything and restamp with `now`), otherwise the
update is rejected with `PRIORITY_REQUIRED` and the stored config is left
unchanged.  No path feeds `ConfigDataHandler::updateFromLocal` or runs a
merge. -/
def handlePostDeviceConfig (deviceConfig : DeviceConfig)
    (req : ConfigRequest) (now : Nat) : DeviceConfig × ConfigPostResponse :=
  let incomingConfig := configIncoming deviceConfig req
  if !configValuesChanged deviceConfig incomingConfig then
    (deviceConfig, ConfigPostResponse.okIdentical)
  else if configHasPriority req then
    (stampConfigTimestamps incomingConfig now, ConfigPostResponse.okPriority)
  else
    (deviceConfig, ConfigPostResponse.priorityRequired)

/-- Stored device config for the C6 counterexample: upper threshold 50 set
at timestamp 10, everything else at defaults. -/
def deviceConfigExample : DeviceConfig :=
  { upperThreshold := 50, upperThresholdLastModified := 10,
    lowerThreshold := 0, lowerThresholdLastModified := 0,
    tankHeight := 0, tankHeightLastModified := 0,
    tankWidth := 0, tankWidthLastModified := 0,
    tankShape := "", tankShapeLastModified := 0,
    usedTotal := 0, usedTotalLastModified := 0,
    maxInflow := 0, maxInflowLastModified := 0,
    force_update := false, forceUpdateLastModified := 0,
    sensorFilter := false, sensorFilterLastModified := 0,
    ipAddress := "", ipAddressLastModified := 0,
    auto_update := true, autoUpdateLastModified := 0 }

/-- The C6 counterexample request: a single submitted field,
`upperThreshold = 80` with the fresh nonzero timestamp 20. -/
def configRequestExample : ConfigRequest :=
  { upperThreshold := some ⟨80, 20⟩,
    lowerThreshold := none, tankHeight := none, tankWidth := none,
    tankShape := none, usedTotal := none, maxInflow := none,
    force_update := none, sensorFilter := none, ip_address := none }

/-- The config-aggregate state corresponding to `deviceConfigExample`: the
device's self slot holds upper threshold 50 written at timestamp 10, api and
local slots never set. -/
def configHandlerExample : ConfigDataHandler :=
  { upperThreshold := ⟨0, 0, 0, 0, 50, 10⟩,
    lowerThreshold := ⟨0, 0, 0, 0, 0, 0⟩,
    tankHeight := ⟨0, 0, 0, 0, 0, 0⟩,
    tankWidth := ⟨0, 0, 0, 0, 0, 0⟩,
    tankShape := ⟨"", 0, "", 0, "", 0⟩,
    usedTotal := ⟨0, 0, 0, 0, 0, 0⟩,
    maxInflow := ⟨0, 0, 0, 0, 0, 0⟩,
    forceUpdate := ⟨false, 0, false, 0, false, 0⟩,
    ipAddress := ⟨"", 0, "", 0, "", 0⟩ }

/-- C6 counterexample: for a config POST submitting `upperThreshold = 80`
with a nonzero timestamp (20) strictly newer than the stored one (10), the
claimed `update_from_local` + merge pipeline would make the merged upper
threshold 80 (the local write wins), yet the actual handler rejects the
request with the 400 `PRIORITY_REQUIRED` response, leaves the stored value
at 50, and its response carries no merged values at all. -/
theorem C6_counterexample :
    handlePostDeviceConfig deviceConfigExample configRequestExample 999 =
      (deviceConfigExample, ConfigPostResponse.priorityRequired) ∧
    (((configHandlerExample.updateFromLocal 80 20 0 0 0 0 0 0 "" 0 0 0 0 0
        false 0 "" 0).merge).1.upperThreshold.value = 80 ∧
     ((configHandlerExample.updateFromLocal 80 20 0 0 0 0 0 0 "" 0 0 0 0 0
        false 0 "" 0).merge).1.upperThreshold.lastModified = 20) ∧
    deviceConfigExample.upperThreshold = 50 := by
  refine ⟨?_, ⟨?_, ?_⟩, rfl⟩ <;> decide

/-- C6 (amended): the local config POST endpoint does not feed
`update_from_local` and runs no merge pass; a submission whose values differ
from the stored config is accepted only when it carries a priority flag
(some submitted timestamp 0), in which case the submitted fields replace the
config and all parsed fields are restamped with the current time, and is
otherwise rejected with `PRIORITY_REQUIRED` leaving the stored config
unchanged; responses report only success/failure, never merged values. -/
theorem C6_theorem (dc : DeviceConfig) (req : ConfigRequest) (now : Nat) :
    (configHasPriority req = false →
      configValuesChanged dc (configIncoming dc req) = true →
      handlePostDeviceConfig dc req now =
        (dc, ConfigPostResponse.priorityRequired)) ∧
    (configHasPriority req = true →
      configValuesChanged dc (configIncoming dc req) = true →
      handlePostDeviceConfig dc req now =
        (stampConfigTimestamps (configIncoming dc req) now,
         ConfigPostResponse.okPriority)) ∧
    (configValuesChanged dc (configIncoming dc req) = false →
      handlePostDeviceConfig dc req now =
        (dc, ConfigPostResponse.okIdentical)) := by
  refine ⟨?_, ?_, ?_⟩ <;> intro h1 <;>
    first
      | (intro h2; unfold handlePostDeviceConfig; simp [h1, h2])
      | (unfold handlePostDeviceConfig; simp [h1])

/-- Witness for C6 (amended): the no-priority branch at the counterexample
input and the priority branch at the same request with timestamp 0. -/
theorem C6_witness :
    handlePostDeviceConfig deviceConfigExample configRequestExample 999 =
      (deviceConfigExample, ConfigPostResponse.priorityRequired) ∧
    handlePostDeviceConfig deviceConfigExample
        { configRequestExample with upperThreshold := some ⟨80, 0⟩ } 999 =
      (stampConfigTimestamps
          (configIncoming deviceConfigExample
            { configRequestExample with upperThreshold := some ⟨80, 0⟩ }) 999,
       ConfigPostResponse.okPriority) :=
  ⟨(C6_theorem deviceConfigExample configRequestExample 999).1
      (by decide) (by decide),
   (C6_theorem deviceConfigExample
      { configRequestExample with upperThreshold := some ⟨80, 0⟩ } 999).2.1
      (by decide) (by decide)⟩

end IOTWaterTank
